import Mathlib

/-!
Verification of the force/release lowering pass (V3Force.cpp).

The pass converts `force`/`release` statements and signals marked
`forceable` into plain assignments plus per-signal shadow state
(read-shadow, forced value, force enable).  We embed the IR fragments the
pass constructs and the construction functions themselves, translated
directly from the source, and prove or refute the specification claims
about them.
-/

namespace V3Force

/-- Data types of signals, as the pass distinguishes them: a basic
(possibly bit-ranged) type with a packed width, or an unpacked array of
elements.  `ranged` mirrors `AstBasicDType::isRanged()`. -/
inductive DType where
  | basic (width : Nat) (ranged : Bool)
  | unpack (elements : Nat) (elem : DType)
deriving DecidableEq, Repr

namespace DType

/-- Source `basicp()`: the underlying basic dtype (width, ranged) beneath any
unpacked-array dimensions. -/
def basicp : DType → Nat × Bool
  | .basic w r => (w, r)
  | .unpack _ e => e.basicp

/-- Source `VN_IS(d->skipRefp(), UnpackArrayDType)`. -/
def isUnpackArray : DType → Bool
  | .unpack _ _ => true
  | .basic _ _ => false

/-- Source `AstUnpackArrayDType::elementsConst()`; only meaningful when the dtype
is an unpacked array (the source only calls it under a successful
`VN_CAST`). -/
def elementsConst : DType → Nat
  | .unpack n _ => n
  | .basic _ _ => 0

/-- Source `width()` of a node of this dtype: unpacked dimensions are not part of
the packed width, so this is the element's packed width for arrays. -/
def packedWidth : DType → Nat
  | .basic w _ => w
  | .unpack _ e => e.packedWidth

/-- Total number of storage bits, counting unpacked elements. -/
def widthTotal : DType → Nat
  | .basic w _ => w
  | .unpack n e => n * e.widthTotal

/-- The dtype of an element of an unpacked array (identity otherwise). -/
def elemDType : DType → DType
  | .unpack _ e => e
  | .basic w r => .basic w r

end DType

/-- Source `isRangedDType(nodep)`: the node's dtype has a ranged basic dtype
beneath it.  If ranged, the pass needs a multibit enable to support
bit-by-bit part-select forces; otherwise (a real or other opaque dtype) a
single-bit enable. -/
def isRangedDType (d : DType) : Bool := d.basicp.2

/-- Source `varp->findBitDType()`: a plain single bit. -/
def findBitDType : DType := .basic 1 false

/-- The dtype chosen for the force-enable variable `<name>__VforceEn` in
the `ForceComponentsVar` constructor:
`(isRangedDType(varp) || VN_IS(varp->dtypeSkipRefp(), UnpackArrayDType))
 ? varp->dtypep() : varp->findBitDType()`. -/
def forceEnDType (d : DType) : DType :=
  if isRangedDType d || d.isUnpackArray then d else findBitDType

/-- Which variable-scope a reference targets, within the world of one
forceable signal: the original signal or one of its three shadows. -/
inductive ShadowSig where
  | orig  -- the original signal's AstVarScope
  | rd    -- `<name>__VforceRd`
  | en    -- `<name>__VforceEn`
  | val   -- `<name>__VforceVal`
deriving DecidableEq, Repr

/-- Read/write mode of a reference (`VAccess`). -/
inductive VAccess where
  | READ
  | WRITE
  | READWRITE
deriving DecidableEq, Repr

/-- An `AstVarRef`: target, access, and the `user2` bypass tag that tells
reference retargeting not to redirect this read. -/
structure SRef where
  sig : ShadowSig
  access : VAccess
  user2 : Bool
deriving DecidableEq, Repr

/-- Expressions the pass constructs (the fragment of the IR it emits). -/
inductive SExpr where
  | varref (r : SRef)
  | arraysel (e : SExpr) (idx : SExpr)  -- AstArraySel
  | const (value : Nat) (width : Nat)   -- AstConst
  | cond (c t e : SExpr)                -- AstCond
  | bitor (a b : SExpr)                 -- AstOr
  | bitand (a b : SExpr)                -- AstAnd
  | bitnot (a : SExpr)                  -- AstNot
deriving DecidableEq, Repr

/-- An `AstArraySel` built with a plain `int` index (the IR wraps the int
in a 32-bit constant). -/
def constInt (n : Nat) : SExpr := .const n 32

/-- One assignment statement (`AstAssign` / `AstAssignW`: both have an
lvalue and an rvalue; whether the emitted node is procedural or
continuous is recorded by the containing block, not modelled here). -/
structure Assign where
  lhs : SExpr
  rhs : SExpr
deriving DecidableEq, Repr

namespace SExpr

/-- The targets of all WRITE-access references in an expression, in
traversal order (what `foreach([](AstNodeVarRef*){...})` visits and acts
on when filtering on `VAccess::WRITE`). -/
def writeTargets : SExpr → List ShadowSig
  | .varref r => if r.access = .WRITE then [r.sig] else []
  | .arraysel e i => e.writeTargets ++ i.writeTargets
  | .const _ _ => []
  | .cond c t e => c.writeTargets ++ t.writeTargets ++ e.writeTargets
  | .bitor a b => a.writeTargets ++ b.writeTargets
  | .bitand a b => a.writeTargets ++ b.writeTargets
  | .bitnot a => a.writeTargets

/-- Source `transformWritenVarScopes`: replace every WRITE-access reference with
a fresh WRITE reference to the mapped signal (the fresh `AstVarRef`
carries no `user2` tag). -/
def retargetWrites (t : ShadowSig) : SExpr → SExpr
  | .varref r => if r.access = .WRITE then .varref ⟨t, .WRITE, false⟩ else .varref r
  | .arraysel e i => .arraysel (e.retargetWrites t) (i.retargetWrites t)
  | .const v w => .const v w
  | .cond c th e => .cond (c.retargetWrites t) (th.retargetWrites t) (e.retargetWrites t)
  | .bitor a b => .bitor (a.retargetWrites t) (b.retargetWrites t)
  | .bitand a b => .bitand (a.retargetWrites t) (b.retargetWrites t)
  | .bitnot a => .bitnot (a.retargetWrites t)

/-- Whether an expression is an all-zero constant (of any width). -/
def isZeroConst : SExpr → Bool
  | .const 0 _ => true
  | _ => false

end SExpr

/-! ## The scope-level shadow wiring (`ForceComponentsVarScope` constructor) -/

/-- A READ reference to a shadow, as freshly constructed (no bypass tag). -/
def readRef (s : ShadowSig) : SExpr := .varref ⟨s, .READ, false⟩

/-- The initializer emitted at scope-shadow creation: `__VforceEn = 0`
once at simulation start, per element for unpacked arrays.  The constant
is a `V3Number` of the enable variable's width. -/
def initAssignsFor (d : DType) : List Assign :=
  let lhsp : SExpr := .varref ⟨.en, .WRITE, false⟩
  let zero : SExpr := .const 0 (forceEnDType d).packedWidth
  if d.isUnpackArray then
    (List.range d.elementsConst).map fun idx => ⟨.arraysel lhsp (constInt idx), zero⟩
  else
    [⟨lhsp, zero⟩]

/-- The right-hand sides of the combinational override, one per addressed
element (lines 120–164 of the constructor): per element of an unpacked
array, `(En[i] & Val[i]) | (~En[i] & orig[i])` when the basic dtype is
ranged, else `En[i] ? Val[i] : orig[i]`; for a ranged non-array signal
the bitwise form over the whole signal, where the read of the original is
the bypass-tagged `origp`; for any other signal the conditional form,
whose read of the original is a fresh, untagged reference. -/
def overrideRhsFor (d : DType) : List SExpr :=
  let origp : SExpr := .varref ⟨.orig, .READ, true⟩  -- origp->user2(1)
  if d.isUnpackArray then
    (List.range d.elementsConst).map fun idx =>
      if isRangedDType d then
        .bitor
          (.bitand (.arraysel (readRef .en) (constInt idx))
                   (.arraysel (readRef .val) (constInt idx)))
          (.bitand (.bitnot (.arraysel (readRef .en) (constInt idx)))
                   (.arraysel (readRef .orig) (constInt idx)))
      else
        .cond (.arraysel (readRef .en) (constInt idx))
              (.arraysel (readRef .val) (constInt idx))
              (.arraysel (readRef .orig) (constInt idx))
  else if isRangedDType d then
    [.bitor (.bitand (readRef .en) (readRef .val))
            (.bitand (.bitnot (readRef .en)) origp)]
  else
    [.cond (readRef .en) (readRef .val) (readRef .orig)]

/-- The continuous assignments of the override block (lines 166–192): for
an unpacked array, one `AstAssignW` per element whose lvalue is
`ArraySel(VarRef{vscp, WRITE}, idx)`; otherwise a single `AstAssignW`
whose lvalue is `VarRef{vscp, WRITE}` — in both branches the write target
is the original signal's scope `vscp`, not the read-shadow `m_rdVscp`. -/
def overrideAssignsFor (d : DType) : List Assign :=
  let rhs := overrideRhsFor d
  if d.isUnpackArray then
    (List.range d.elementsConst).map fun idx =>
      ⟨.arraysel (.varref ⟨.orig, .WRITE, false⟩) (constInt idx),
       rhs.getD idx (.const 0 0)⟩
  else
    [⟨.varref ⟨.orig, .WRITE, false⟩, rhs.getD 0 (.const 0 0)⟩]

/-! ## Force and release lowering -/

/-- The per-signal facts the lowering dispatches on: the declared dtype
and `varp->isContinuously()` (a net, continuously driven, versus a
procedurally written variable). -/
structure SigInfo where
  dtype : DType
  isContinuously : Bool
deriving DecidableEq, Repr

/-- The lvalue shapes of a force/release statement over one underlying
signal: a plain reference to the whole signal, or an `AstArraySel` of it
with an index expression. -/
inductive LValue where
  | whole
  | indexed (idx : SExpr)
deriving DecidableEq, Repr

namespace LValue

/-- The lvalue as the expression tree the statement holds. -/
def expr : LValue → SExpr
  | .whole => .varref ⟨.orig, .WRITE, false⟩
  | .indexed idx => .arraysel (.varref ⟨.orig, .WRITE, false⟩) idx

/-- Source `lhsp->dtypep()`: the expression's dtype — the element dtype when the
lvalue is an `ArraySel` of the signal. -/
def dtypeOf (s : SigInfo) : LValue → DType
  | .whole => s.dtype
  | .indexed _ => s.dtype.elemDType

end LValue

/-- Source `visit(AstAssignForce*)` (lines 237–270): replace `force L = R` by
three assignments, relinked in this order:
1. `setEnp`: a clone of L, write references retargeted to `__VforceEn`,
   assigned an all-ones constant of width `isRangedDType(L) ? L.width : 1`;
2. `setValp`: a clone of L retargeted to `__VforceVal`, assigned R;
3. `setRdp`: L itself retargeted to `__VforceRd`, assigned R. -/
def forceLower (s : SigInfo) (lv : LValue) (rhs : SExpr) : List Assign :=
  let lhsD := lv.dtypeOf s
  let onesW := if isRangedDType lhsD then lhsD.packedWidth else 1
  let ones : SExpr := .const (2 ^ onesW - 1) onesW
  let setEnp : Assign := ⟨(lv.expr).retargetWrites .en, ones⟩
  let setValp : Assign := ⟨(lv.expr).retargetWrites .val, rhs⟩
  let setRdp : Assign := ⟨(lv.expr).retargetWrites .rd, rhs⟩
  [setEnp, setValp, setRdp]

/-- Lines 285–291 of `visit(AstRelease*)`: whether the lvalue's dtype is
an unpacked array (`is_unpacked`), and the element count
`num_elements_unpacked`, which is assigned only under `is_unpacked` and
is otherwise uninitialized (`none`). -/
def releaseNumElements (s : SigInfo) (lv : LValue) : Option Nat :=
  let lhsD := lv.dtypeOf s
  if lhsD.isUnpackArray then some lhsD.elementsConst else none

/-- The value the unconditional `v3info("num_elements_unpacked: " ...)`
on line 291 reads: `none` means the log reads the variable while it is
still uninitialized. -/
def releaseNumElementsLogged (s : SigInfo) (lv : LValue) : Option Nat :=
  releaseNumElements s lv

/-- The enable-clear assignments of `release` (lines 296–318):
`<lhs>__VforceEn = 0`, per element (an `ArraySel` around a clone of the
lvalue) when the lvalue's dtype is an unpacked array, else once; write
references of each lvalue are then retargeted to `__VforceEn`. -/
def releaseEnClears (s : SigInfo) (lv : LValue) : List Assign :=
  let lhsD := lv.dtypeOf s
  let zeroW := if isRangedDType lhsD then lhsD.packedWidth else 1
  let zero : SExpr := .const 0 zeroW
  if lhsD.isUnpackArray then
    (List.range lhsD.elementsConst).map fun idx =>
      ⟨(SExpr.arraysel lv.expr (constInt idx)).retargetWrites .en, zero⟩
  else
    [⟨(lv.expr).retargetWrites .en, zero⟩]

/-- The index expression used by the i-th read-shadow reset (lines
347–355): the lvalue's own index when the lvalue is an `ArraySel`,
otherwise the running counter `array_sel` as a constant. -/
def releaseIndex (lv : LValue) (i : Nat) : SExpr :=
  match lv with
  | .indexed idx => idx
  | .whole => constInt i

/-- The lvalue of the i-th read-shadow reset assignment (lines 358–382):
each WRITE reference is rebuilt on
`newVscp = isContinuously ? m_rdVscp : vscp`, wrapped in an `ArraySel` by
the reset's index when the signal's declared dtype is an unpacked
array. -/
def resetRdLhs (s : SigInfo) (lv : LValue) (i : Nat) : SExpr :=
  let newVscp : ShadowSig := if s.isContinuously then .rd else .orig
  if s.dtype.isUnpackArray then
    .arraysel (.varref ⟨newVscp, .WRITE, false⟩) (releaseIndex lv i)
  else
    .varref ⟨newVscp, .WRITE, false⟩

/-- The rvalue of the i-th read-shadow reset assignment (lines 385–436):
the WRITE reference cloned from the lvalue is replaced by `newpRefp`, a
bypass-tagged READ of the original signal, either bare (net), or wrapped
in the per-element or whole-signal override expression built from
`__VforceEn` and `__VforceVal` (variable). -/
def resetRdRhs (s : SigInfo) (lv : LValue) (i : Nat) : SExpr :=
  let newpRefp : SExpr := .varref ⟨.orig, .READ, true⟩  -- newpRefp->user2(1)
  let index := releaseIndex lv i
  if s.isContinuously then
    newpRefp
  else if s.dtype.isUnpackArray then
    if isRangedDType s.dtype then
      .bitor
        (.bitand (.arraysel (readRef .en) index) (.arraysel (readRef .val) index))
        (.bitand (.bitnot (.arraysel (readRef .en) index)) (.arraysel newpRefp index))
    else
      .cond (.arraysel (readRef .en) index) (.arraysel (readRef .val) index)
            (.arraysel newpRefp index)
  else if isRangedDType s.dtype then
    .bitor (.bitand (readRef .en) (readRef .val))
           (.bitand (.bitnot (readRef .en)) newpRefp)
  else
    .cond (readRef .en) (readRef .val) newpRefp

/-- The read-shadow reset assignments of `release` (lines 326–437): one
(`resetRdp_vec` starts with a single entry) plus, when the lvalue's dtype
is an unpacked array of N elements, N−1 further entries; the i-th entry
is then rewritten by the lhs and rhs transforms above. -/
def releaseResetRds (s : SigInfo) (lv : LValue) : List Assign :=
  let n := match releaseNumElements s lv with
    | some k => k
    | none => 1
  (List.range (max n 1)).map fun i => ⟨resetRdLhs s lv i, resetRdRhs s lv i⟩

/-- Source `visit(AstRelease*)` output order (lines 439–442): the read-shadow
resets first, then the enable clears, relinked in place of the release
statement. -/
def releaseLower (s : SigInfo) (lv : LValue) : List Assign :=
  releaseResetRds s lv ++ releaseEnClears s lv

/-! ## Reference retargeting (the `ForceConvertVisitor` constructor) -/

/-- A reference anywhere in the netlist, over variable-scope identities:
the scope it targets, its access mode, and its `user2` bypass tag. -/
structure GRef where
  vscp : Nat
  access : VAccess
  user2 : Bool
deriving DecidableEq, Repr

/-- One step of the final retargeting pass (lines 460–480), given the
result of `m_forceComponentsVarScope.tryGet(nodep->varScopep())` — the
read-shadow scope when the signal has shadow state, `none` otherwise:
reads that are not bypass-tagged are redirected to the read-shadow;
writes are left on the original signal; a read-write access is a
compilation error. -/
def retargetRefCore (shadowRd : Option Nat) (r : GRef) : Except String GRef :=
  match shadowRd with
  | none => .ok r
  | some rdId =>
    match r.access with
    | .READ => .ok (if r.user2 then r else { r with vscp := rdId })
    | .WRITE => .ok r
    | .READWRITE =>
      .error "Unsupported: Signals used via read-write reference cannot be forced"

/-- The retargeting applied to one reference of the netlist
(`foreachAndNext` over every `AstVarRef`). -/
def retargetRef (tryGetRd : Nat → Option Nat) (r : GRef) : Except String GRef :=
  retargetRefCore (tryGetRd r.vscp) r

/-! ## The lazy shadow-state allocator (`getForceComponents`) -/

/-- Identities of the three shadow entities (reference equality is
identity of these ids). -/
structure Triple where
  rd : Nat
  en : Nat
  val : Nat
deriving DecidableEq, Repr

/-- The allocator's state: the two `AstUser1Allocator` caches (keyed by
variable and by variable-scope identity), a fresh-identity counter, and
counters of the initializer and override blocks constructed so far. -/
structure AllocState where
  varMap : List (Nat × Triple)
  vscpMap : List (Nat × Triple)
  nextId : Nat
  initBlocks : Nat
  overrideBlocks : Nat
deriving DecidableEq, Repr

/-- The state before any shadow state exists. -/
def emptyAllocState : AllocState := ⟨[], [], 0, 0, 0⟩

/-- Source `m_forceComponentsVar(varp, varp)`: get-or-create the
declaration-level triple; creation constructs the three shadow variable
declarations (three fresh identities) and caches them. -/
def getOrCreateVarComponents (varId : Nat) (st : AllocState) : Triple × AllocState :=
  match st.varMap.lookup varId with
  | some t => (t, st)
  | none =>
    let t : Triple := ⟨st.nextId, st.nextId + 1, st.nextId + 2⟩
    (t, { st with varMap := (varId, t) :: st.varMap, nextId := st.nextId + 3 })

/-- Source `getForceComponents(vscp)` (lines 213–216): evaluate the
declaration-level get-or-create, then get-or-create the scope-level
triple; scope-level creation constructs the three scoped instances, one
initializer and one combinational override block. -/
def getForceComponents (vscpId varId : Nat) (st : AllocState) : Triple × AllocState :=
  let st1 := (getOrCreateVarComponents varId st).2
  match st1.vscpMap.lookup vscpId with
  | some t => (t, st1)
  | none =>
    let t : Triple := ⟨st1.nextId, st1.nextId + 1, st1.nextId + 2⟩
    (t, { st1 with
          vscpMap := (vscpId, t) :: st1.vscpMap,
          nextId := st1.nextId + 3,
          initBlocks := st1.initBlocks + 1,
          overrideBlocks := st1.overrideBlocks + 1 })

/-! ## The statement tree and the whole pass -/

/-- Procedural statements as the pass sees them: the two constructs it
eliminates, plain assignments, and sequencing. -/
inductive Stmt where
  | assignForce (s : SigInfo) (lv : LValue) (rhs : SExpr)  -- AstAssignForce
  | release (s : SigInfo) (lv : LValue)                    -- AstRelease
  | assign (a : Assign)
  | seq (a b : Stmt)
  | skip
deriving DecidableEq, Repr

/-- An assignment list as a statement sequence (the `addNext` chain the
relinker splices in place of the removed node). -/
def stmtOfAssigns (l : List Assign) : Stmt :=
  l.foldr (fun a acc => .seq (.assign a) acc) .skip

/-- The lowering traversal: each `AstAssignForce` and `AstRelease` is
unlinked and replaced in place by its lowered assignment sequence;
everything else is traversed unchanged. -/
def lowerStmt : Stmt → Stmt
  | .assignForce s lv rhs => stmtOfAssigns (forceLower s lv rhs)
  | .release s lv => stmtOfAssigns (releaseLower s lv)
  | .assign a => .assign a
  | .seq a b => .seq (lowerStmt a) (lowerStmt b)
  | .skip => .skip

/-- How many force/release statements a tree contains. -/
def countForceRelease : Stmt → Nat
  | .assignForce _ _ _ => 1
  | .release _ _ => 1
  | .assign _ => 0
  | .seq a b => countForceRelease a + countForceRelease b
  | .skip => 0

/-- The compilation unit as the entry point sees it: the netlist tree and
the global `v3Global.hasForceableSignals()` flag. -/
structure Netlist where
  hasForceableSignals : Bool
  tree : Stmt
deriving DecidableEq, Repr

/-- Source `V3Force::forceAll` (lines 490–495): if no forceable signal
exists in the compilation unit, return immediately; otherwise apply the
`ForceConvertVisitor` transformation to the tree. -/
def forceAll (nl : Netlist) : Netlist :=
  if !nl.hasForceableSignals then nl
  else { nl with tree := lowerStmt nl.tree }

/-! ## Spec-side definition for the Enable-width claim -/

/-- Modelled from the spec's words, for comparison with `forceEnDType`:
the claimed number of Enable bits — "one bit per element for
ranged/vector or unpacked-array signals — to support sub-range or
per-element forcing — otherwise a single bit", i.e. the number of
independently-forceable bits/elements of the original signal. -/
def claimedEnableBits (d : DType) : Nat :=
  if d.isUnpackArray then d.elementsConst
  else if isRangedDType d then d.packedWidth
  else 1

/-! ## Theorems -/

/-- Lowered assignment sequences contain no force/release statements. -/
theorem countForceRelease_stmtOfAssigns (l : List Assign) :
    countForceRelease (stmtOfAssigns l) = 0 := by
  induction l with
  | nil => rfl
  | cons a t ih => simpa [stmtOfAssigns, countForceRelease] using ih

/-- C1: the claim states the override block's continuous assignment
drives the Read-shadow (not the original signal) and that the read of the
original inside the block is bypass-tagged.  The code instead makes the
original signal the write target of the emitted `AstAssignW` in every
branch (the reference to `m_rdVscp` built for the lvalue is never used),
and the original-signal read is bypass-tagged only in the ranged
non-array branch: evaluated at a non-ranged scalar, the emitted block is
`orig = En ? Val : orig` with an untagged `orig` read, which reference
retargeting will redirect. -/
theorem C1_override_block_drives_original :
    overrideAssignsFor (.basic 1 false)
      = [⟨.varref ⟨.orig, .WRITE, false⟩,
          .cond (readRef .en) (readRef .val) (.varref ⟨.orig, .READ, false⟩)⟩]
    ∧ (∀ d : DType, (overrideAssignsFor d).all
        (fun a => decide (a.lhs.writeTargets = [ShadowSig.orig])) = true) := by
  refine ⟨by decide, ?_⟩
  intro d
  rw [List.all_eq_true]
  intro a ha
  cases d with
  | basic w r =>
    simp only [overrideAssignsFor, DType.isUnpackArray, if_false, Bool.false_eq_true,
      ite_false, List.mem_singleton] at ha
    subst ha
    simp [SExpr.writeTargets, readRef]
  | unpack n e =>
    simp only [overrideAssignsFor, DType.isUnpackArray, ite_true, List.mem_map] at ha
    obtain ⟨i, _, rfl⟩ := ha
    simp [SExpr.writeTargets, constInt]

/-- C2 counterexample: for a whole-signal release of a non-ranged scalar
net, the generated read-shadow reset writes the Read-shadow, not the true
signal — it is not a self-assignment of the true signal as the claim
states. -/
theorem C2_net_reset_writes_read_shadow :
    (releaseResetRds ⟨.basic 1 false, true⟩ .whole).map (fun a => a.lhs.writeTargets)
      = [[ShadowSig.rd]]
    ∧ ShadowSig.rd ≠ ShadowSig.orig := by
  decide

/-- C2 (amended): for every release, when the underlying signal is a net
(continuously driven) each read-shadow reset assignment writes the
Read-shadow and its right-hand side is the bypass-tagged read of the true
signal (so the reset re-synchronizes the observed value to the live
driven value); when it is a variable the reset writes the true signal,
and for a whole scalar target assigns it exactly the override expression
over the old Enable, Value and the bypass-tagged true-signal read, so a
read after release still yields the last forced value until the next
procedural write. -/
theorem C2_release_reset_asymmetry :
    (∀ (d : DType) (lv : LValue),
      (releaseResetRds ⟨d, true⟩ lv).all (fun a =>
        decide (a.lhs.writeTargets.head? = some ShadowSig.rd)
        && decide (a.rhs = .varref ⟨.orig, .READ, true⟩)) = true)
    ∧ (∀ (d : DType) (lv : LValue),
      (releaseResetRds ⟨d, false⟩ lv).all (fun a =>
        decide (a.lhs.writeTargets.head? = some ShadowSig.orig)) = true)
    ∧ (∀ w : Nat, releaseResetRds ⟨.basic w false, false⟩ .whole
        = [⟨.varref ⟨.orig, .WRITE, false⟩,
            .cond (readRef .en) (readRef .val) (.varref ⟨.orig, .READ, true⟩)⟩])
    ∧ (∀ w : Nat, releaseResetRds ⟨.basic w true, false⟩ .whole
        = [⟨.varref ⟨.orig, .WRITE, false⟩,
            .bitor (.bitand (readRef .en) (readRef .val))
                   (.bitand (.bitnot (readRef .en)) (.varref ⟨.orig, .READ, true⟩))⟩]) := by
  refine ⟨?_, ?_, ?_, ?_⟩
  · intro d lv
    rw [List.all_eq_true]
    intro a ha
    simp only [releaseResetRds, List.mem_map] at ha
    obtain ⟨i, _, rfl⟩ := ha
    cases d <;> cases lv <;>
      simp [resetRdLhs, resetRdRhs, DType.isUnpackArray, SExpr.writeTargets, releaseIndex]
  · intro d lv
    rw [List.all_eq_true]
    intro a ha
    simp only [releaseResetRds, List.mem_map] at ha
    obtain ⟨i, _, rfl⟩ := ha
    cases d <;> cases lv <;>
      simp [resetRdLhs, resetRdRhs, DType.isUnpackArray, SExpr.writeTargets, releaseIndex]
  · intro w
    simp [releaseResetRds, releaseNumElements, resetRdLhs, resetRdRhs, releaseIndex,
      LValue.dtypeOf, DType.isUnpackArray, isRangedDType, DType.basicp, List.range_succ,
      readRef]
  · intro w
    simp [releaseResetRds, releaseNumElements, resetRdLhs, resetRdRhs, releaseIndex,
      LValue.dtypeOf, DType.isUnpackArray, isRangedDType, DType.basicp, List.range_succ,
      readRef]

/-- C3: lowering `force L = R` replaces it in place with exactly three
plain assignments in this order: first Enable(L) assigned an all-ones
constant (full lvalue width when ranged, else a single bit), then
Value(L) = R, then ReadShadow(L) = R written directly as a plain
assignment to the Read-shadow. -/
theorem C3_force_lowering_order : ∀ (s : SigInfo) (lv : LValue) (rhs : SExpr),
    (forceLower s lv rhs).map (fun a => (a.lhs.writeTargets.head?, a.rhs))
      = [(some ShadowSig.en,
          .const
            (2 ^ (if isRangedDType (lv.dtypeOf s) then (lv.dtypeOf s).packedWidth else 1) - 1)
            (if isRangedDType (lv.dtypeOf s) then (lv.dtypeOf s).packedWidth else 1)),
         (some ShadowSig.val, rhs),
         (some ShadowSig.rd, rhs)]
    ∧ lowerStmt (.assignForce s lv rhs) = stmtOfAssigns (forceLower s lv rhs) := by
  intro s lv rhs
  refine ⟨?_, rfl⟩
  cases lv <;>
    simp [forceLower, SExpr.retargetWrites, SExpr.writeTargets, LValue.expr]

/-- C4: the lowered replacement of a release statement is the read-shadow
reset assignments followed by the enable-clear assignments; every
enable-clear writes Enable with an all-zero constant, and every reset
writes the Read-shadow (net) or the true signal (variable) — so the
resets, which read the old Enable/Value, all precede the clears. -/
theorem C4_release_reset_before_enable_clear : ∀ (s : SigInfo) (lv : LValue),
    releaseLower s lv = releaseResetRds s lv ++ releaseEnClears s lv
    ∧ (releaseEnClears s lv).all (fun a =>
        decide (a.lhs.writeTargets.head? = some ShadowSig.en) && a.rhs.isZeroConst) = true
    ∧ (releaseResetRds s lv).all (fun a =>
        decide (a.lhs.writeTargets.head?
          = some (if s.isContinuously then ShadowSig.rd else ShadowSig.orig))) = true := by
  intro s lv
  refine ⟨rfl, ?_, ?_⟩
  · rw [List.all_eq_true]
    intro a ha
    rcases s with ⟨d, c⟩
    cases hd : DType.isUnpackArray (lv.dtypeOf ⟨d, c⟩) with
    | true =>
      simp only [releaseEnClears, hd, ite_true, List.mem_map] at ha
      obtain ⟨i, _, rfl⟩ := ha
      cases lv <;>
        simp [SExpr.retargetWrites, SExpr.writeTargets, SExpr.isZeroConst, LValue.expr,
          constInt]
    | false =>
      simp only [releaseEnClears, hd, Bool.false_eq_true, ite_false,
        List.mem_singleton] at ha
      subst ha
      cases lv <;>
        simp [SExpr.retargetWrites, SExpr.writeTargets, SExpr.isZeroConst, LValue.expr]
  · rw [List.all_eq_true]
    intro a ha
    simp only [releaseResetRds, List.mem_map] at ha
    obtain ⟨i, _, rfl⟩ := ha
    rcases s with ⟨d, c⟩
    cases c <;> cases d <;> cases lv <;>
      simp [resetRdLhs, DType.isUnpackArray, SExpr.writeTargets, releaseIndex]

/-- C5 counterexample: for an unpacked array of four non-ranged 64-bit
elements (e.g. an array of reals), the Enable dtype the code constructs
is a copy of the whole array dtype, 256 bits in total, while the claim
(one bit per element) calls for 4. -/
theorem C5_enable_width_cex :
    DType.widthTotal (forceEnDType (.unpack 4 (.basic 64 false)))
      ≠ claimedEnableBits (.unpack 4 (.basic 64 false)) := by
  decide

/-- C5 (amended): the Enable dtype is the original signal's dtype for
ranged/vector or unpacked-array signals and a single bit otherwise;
hence the claimed width (one bit per independently-forceable bit/element)
holds for all non-array signals and for unpacked arrays of one-bit
elements, but for other unpacked arrays the Enable's element width equals
the original element's full width rather than one bit per element. -/
theorem C5_enable_width :
    (∀ (w : Nat) (r : Bool),
      DType.widthTotal (forceEnDType (.basic w r)) = claimedEnableBits (.basic w r))
    ∧ (∀ (n : Nat) (e : DType), forceEnDType (.unpack n e) = .unpack n e)
    ∧ (∀ (n : Nat) (r : Bool),
      DType.widthTotal (forceEnDType (.unpack n (.basic 1 r)))
        = claimedEnableBits (.unpack n (.basic 1 r))) := by
  refine ⟨?_, ?_, ?_⟩
  · intro w r
    cases r <;>
      simp [forceEnDType, claimedEnableBits, isRangedDType, DType.basicp,
        DType.isUnpackArray, findBitDType, DType.widthTotal, DType.packedWidth]
  · intro n e
    simp [forceEnDType, DType.isUnpackArray]
  · intro n r
    simp [forceEnDType, claimedEnableBits, isRangedDType, DType.basicp,
      DType.isUnpackArray, DType.widthTotal, DType.elementsConst]

/-- C6: in the final whole-netlist retargeting pass, for a reference to a
signal with scope-level shadow state (`tryGet` returns its read-shadow):
a read reference that is not bypass-tagged is redirected to the
Read-shadow instance, a bypass-tagged read is kept, a write reference is
left pointing at the true signal, and a read-write reference is rejected
with the unsupported-construct compilation error; references to signals
without shadow state are untouched. -/
theorem C6_retarget_read_write_split : ∀ (rdId v : Nat) (u : Bool),
    retargetRefCore (some rdId) ⟨v, .READ, false⟩ = .ok ⟨rdId, .READ, false⟩
    ∧ retargetRefCore (some rdId) ⟨v, .READ, true⟩ = .ok ⟨v, .READ, true⟩
    ∧ retargetRefCore (some rdId) ⟨v, .WRITE, u⟩ = .ok ⟨v, .WRITE, u⟩
    ∧ retargetRefCore (some rdId) ⟨v, .READWRITE, u⟩
        = .error "Unsupported: Signals used via read-write reference cannot be forced"
    ∧ retargetRefCore none ⟨v, .READ, u⟩ = .ok ⟨v, .READ, u⟩
    ∧ (∀ (f : Nat → Option Nat) (r : GRef), retargetRef f r = retargetRefCore (f r.vscp) r)
    := by
  intro rdId v u
  exact ⟨rfl, rfl, rfl, rfl, rfl, fun f r => rfl⟩

/-- C7: shadow-state allocation is idempotent — a second
`getForceComponents` request for the same (variable, scope instance) pair
returns the identical triple and leaves the allocator state (caches,
fresh identities, and the counts of constructed initializer and override
blocks) unchanged; and the first request from the empty state constructs
exactly one initializer and one override block. -/
theorem C7_getForceComponents_idempotent : ∀ (vscpId varId : Nat) (st : AllocState),
    getForceComponents vscpId varId ((getForceComponents vscpId varId st).2)
      = getForceComponents vscpId varId st
    ∧ (getForceComponents vscpId varId emptyAllocState).2.initBlocks = 1
    ∧ (getForceComponents vscpId varId emptyAllocState).2.overrideBlocks = 1 := by
  intro v w st
  refine ⟨?_, ?_, ?_⟩
  · rcases h1 : st.varMap.lookup w with _ | tv <;>
      rcases h2 : st.vscpMap.lookup v with _ | t <;>
        simp [getForceComponents, getOrCreateVarComponents, h1, h2, List.lookup]
  · simp [getForceComponents, getOrCreateVarComponents, emptyAllocState, List.lookup]
  · simp [getForceComponents, getOrCreateVarComponents, emptyAllocState, List.lookup]

/-- C8: after the lowering traversal, the tree contains zero force
statements and zero release statements: each is replaced in place by its
lowered assignment sequence. -/
theorem C8_no_residual_force_release : ∀ st : Stmt,
    countForceRelease (lowerStmt st) = 0 := by
  intro st
  induction st with
  | assignForce s lv rhs => exact countForceRelease_stmtOfAssigns _
  | release s lv => exact countForceRelease_stmtOfAssigns _
  | assign a => rfl
  | seq a b iha ihb => simp [lowerStmt, countForceRelease, iha, ihb]
  | skip => rfl

/-- C9: the claim states the unpacked-array element count is never read
when the lvalue is a scalar/ranged/indexed-element target; but the debug
log between the guard and the lowering reads `num_elements_unpacked`
unconditionally, and for a scalar target and for an indexed-element
target the count is still uninitialized (`none`) at that read.  For a
genuine whole-array target it is initialized to the element count. -/
theorem C9_count_read_uninitialized :
    releaseNumElementsLogged ⟨.basic 1 false, false⟩ .whole = none
    ∧ releaseNumElementsLogged ⟨.unpack 4 (.basic 1 false), false⟩ (.indexed (constInt 1))
        = none
    ∧ releaseNumElements ⟨.unpack 4 (.basic 1 false), false⟩ .whole = some 4 := by
  exact ⟨rfl, rfl, rfl⟩

/-- C10: when the compilation unit contains no forceable signal, the pass
returns immediately and the netlist tree is completely unchanged. -/
theorem C10_skip_when_no_forceable : ∀ t : Stmt,
    forceAll ⟨false, t⟩ = ⟨false, t⟩ := by
  intro t
  rfl

end V3Force
